import Mathlib

/-!
# Verification of pixi.js Geometry and ColorDodgeBlend

Shallow embedding of two source files of the repository:

* `src/rendering/filters/blend-modes/ColorDodgeBlend.ts` — the color-dodge
  blend-mode variant, supplying a scalar blend function, a per-channel vector
  blend function and a main fragment for two shading backends (gl / gpu).
* `src/rendering/renderers/shared/geometry/Geometry.ts` — the geometry
  description layer: named attributes over shared buffers, buffer
  de-duplication, a lazily recomputed bounds cache invalidated by buffer
  change notifications, and explicit destruction.

Shader scalar arithmetic is embedded over `ℚ` extended with the IEEE-style
non-finite values `+∞`, `-∞` and `NaN` (type `JsNum`), so that the unguarded
division of color-dodge at `blend = 1` is represented faithfully instead of
being totalised to `0`.
-/

/-- A JavaScript / shading-language number: a finite rational, one of the two
infinities, or NaN.  Rounding of finite values is not modelled (finite
arithmetic is exact `ℚ` arithmetic); the special values follow IEEE-754 rules
for the operations below. -/
inductive JsNum where
  | num (q : ℚ)
  | posInf
  | negInf
  | nan
  deriving DecidableEq, Repr

namespace JsNum

/-- Is the value a finite number? -/
def isFinite : JsNum → Bool
  | num _ => true
  | _ => false

/-- JavaScript truthiness of a number: `0` and `NaN` are falsy, every other
number (including the infinities) is truthy. -/
def truthy : JsNum → Bool
  | num q => decide (q ≠ 0)
  | nan => false
  | _ => true

/-- JavaScript `a || b` on numbers: `b` when `a` is falsy, else `a`. -/
def jsOr (a b : JsNum) : JsNum :=
  if a.truthy then a else b

/-- IEEE-style division.  Division of a nonzero finite number by zero yields a
signed infinity, `0 / 0` yields NaN.  (Signed zero is not modelled; `ℚ` has a
single zero, which divides as `+0`.) -/
def div : JsNum → JsNum → JsNum
  | nan, _ => nan
  | _, nan => nan
  | num a, num b =>
      if b = 0 then
        if a = 0 then nan else if 0 < a then posInf else negInf
      else num (a / b)
  | num _, posInf => num 0
  | num _, negInf => num 0
  | posInf, num b => if 0 ≤ b then posInf else negInf
  | negInf, num b => if 0 ≤ b then negInf else posInf
  | posInf, posInf => nan
  | posInf, negInf => nan
  | negInf, posInf => nan
  | negInf, negInf => nan

/-- IEEE-style multiplication.  `0 * ∞ = NaN`. -/
def mul : JsNum → JsNum → JsNum
  | nan, _ => nan
  | _, nan => nan
  | num a, num b => num (a * b)
  | num a, posInf => if a = 0 then nan else if 0 < a then posInf else negInf
  | num a, negInf => if a = 0 then nan else if 0 < a then negInf else posInf
  | posInf, num b => if b = 0 then nan else if 0 < b then posInf else negInf
  | negInf, num b => if b = 0 then nan else if 0 < b then negInf else posInf
  | posInf, posInf => posInf
  | posInf, negInf => negInf
  | negInf, posInf => negInf
  | negInf, negInf => posInf

/-- IEEE-style addition.  `∞ + (-∞) = NaN`. -/
def add : JsNum → JsNum → JsNum
  | nan, _ => nan
  | _, nan => nan
  | num a, num b => num (a + b)
  | num _, posInf => posInf
  | num _, negInf => negInf
  | posInf, num _ => posInf
  | negInf, num _ => negInf
  | posInf, posInf => posInf
  | negInf, negInf => negInf
  | posInf, negInf => nan
  | negInf, posInf => nan

end JsNum

/-! ## ColorDodgeBlend: scalar blend functions

`ColorDodgeBlend.ts` supplies the scalar function for each backend:

gl (GLSL):
```
float colorDodge(float base, float blend)
{
    return base / (1.0 - blend);
}
```
gpu (WGSL):
```
fn colorDodge(base: f32, blend: f32) -> f32
{
    return base / (1.0 - blend);
}
```
-/

/-- The gl-backend scalar color-dodge function: `base / (1.0 - blend)`,
with the division embedded as IEEE division (no guard, no clamp). -/
def colorDodge_gl (base blend : ℚ) : JsNum :=
  JsNum.div (.num base) (.num (1 - blend))

/-- The gpu-backend scalar color-dodge function: `base / (1.0 - blend)`,
with the division embedded as IEEE division (no guard, no clamp). -/
def colorDodge_gpu (base blend : ℚ) : JsNum :=
  JsNum.div (.num base) (.num (1 - blend))

/-! ## ColorDodgeBlend: vector blend functions and main fragments -/

/-- A three-component vector of finite color values (`vec3` input). -/
structure Vec3 where
  r : ℚ
  g : ℚ
  b : ℚ
  deriving DecidableEq, Repr

/-- A four-component color with alpha (`vec4` input). -/
structure Vec4 where
  r : ℚ
  g : ℚ
  b : ℚ
  a : ℚ
  deriving DecidableEq, Repr

/-- The `.rgb` swizzle of a `vec4`. -/
def Vec4.rgb (v : Vec4) : Vec3 :=
  ⟨v.r, v.g, v.b⟩

/-- A three-component vector of possibly non-finite results. -/
structure JVec3 where
  r : JsNum
  g : JsNum
  b : JsNum
  deriving DecidableEq, Repr

/-- A four-component vector of possibly non-finite results. -/
structure JVec4 where
  r : JsNum
  g : JsNum
  b : JsNum
  a : JsNum
  deriving DecidableEq, Repr

/-- Inject a finite `vec3` into `JVec3`. -/
def Vec3.toJ (v : Vec3) : JVec3 :=
  ⟨.num v.r, .num v.g, .num v.b⟩

/-- Componentwise `vec3 * scalar`. -/
def JVec3.scale (v : JVec3) (s : ℚ) : JVec3 :=
  ⟨v.r.mul (.num s), v.g.mul (.num s), v.b.mul (.num s)⟩

/-- Componentwise `vec3 + vec3`. -/
def JVec3.addV (v w : JVec3) : JVec3 :=
  ⟨v.r.add w.r, v.g.add w.g, v.b.add w.b⟩

/-- The gl-backend vector blend:
```
vec3 blendColorDodge(vec3 base, vec3 blend, float opacity)
{
    vec3 blended = vec3(
        colorDodge(base.r, blend.r),
        colorDodge(base.g, blend.g),
        colorDodge(base.b, blend.b)
    );
    return (blended * opacity + base * (1.0 - opacity));
}
``` -/
def blendColorDodge_gl (base blend : Vec3) (opacity : ℚ) : JVec3 :=
  let blended : JVec3 :=
    ⟨colorDodge_gl base.r blend.r,
     colorDodge_gl base.g blend.g,
     colorDodge_gl base.b blend.b⟩
  (blended.scale opacity).addV (base.toJ.scale (1 - opacity))

/-- The gpu-backend vector blend:
```
fn blendColorDodge(base: vec3<f32>, blend: vec3<f32>, opacity: f32) -> vec3<f32>
{
    let blended = vec3<f32>(
        colorDodge(base.r, blend.r),
        colorDodge(base.g, blend.g),
        colorDodge(base.b, blend.b)
    );
    return (blended * opacity + base * (1.0 - opacity));
}
``` -/
def blendColorDodge_gpu (base blend : Vec3) (opacity : ℚ) : JVec3 :=
  let blended : JVec3 :=
    ⟨colorDodge_gpu base.r blend.r,
     colorDodge_gpu base.g blend.g,
     colorDodge_gpu base.b blend.b⟩
  (blended.scale opacity).addV (base.toJ.scale (1 - opacity))

/-- The gl-backend main fragment:
`fragColor = vec4(blendColorDodge(back.rgb, front.rgb, front.a), uBlend);` -/
def colorDodgeMain_gl (back front : Vec4) (uBlend : ℚ) : JVec4 :=
  let v := blendColorDodge_gl back.rgb front.rgb front.a
  ⟨v.r, v.g, v.b, .num uBlend⟩

/-- The gpu-backend main fragment:
`out = vec4<f32>(blendColorDodge(back.rgb, front.rgb, front.a), blendUniforms.uBlend);` -/
def colorDodgeMain_gpu (back front : Vec4) (uBlend : ℚ) : JVec4 :=
  let v := blendColorDodge_gpu back.rgb front.rgb front.a
  ⟨v.r, v.g, v.b, .num uBlend⟩

/-! ## Geometry

Embedding of `Geometry.ts`.  A `Buffer` is external to the core; it carries a
`uid` (pixi assigns every buffer object a fresh unique id), and the length of
its `data` array.  Lean equality on `Buffer` records models JavaScript object
identity: distinct buffer objects always have distinct uids. -/

/-- A referenced buffer: its unique id and the `length` of its `data`
typed array. -/
structure Buffer where
  uid : ℕ
  dataLen : ℕ
  deriving DecidableEq, Repr

/-- An attribute, as stored by `Geometry.addAttribute` after normalisation by
`ensureIsAttribute`.  Only the fields the embedded operations read are kept:
the backing buffer, the optional per-vertex `size` (element count) and the
optional `stride` (bytes).  The remaining optional fields (`format`, `offset`,
`instance`, `start`, `divisor`) are never read by `Geometry.ts`. -/
structure Attribute where
  buffer : Buffer
  stride : Option ℚ := none
  size : Option ℚ := none
  deriving DecidableEq, Repr

/-- Notifications emitted by a `Geometry` (an `EventEmitter`):
`update` whenever a subscribed buffer reports a change, `destroyEvt` once
from `destroy`. -/
inductive GEvt where
  | update
  | destroyEvt
  deriving DecidableEq, Repr

/-- The state of one `Geometry` object, together with the observable effects
of its methods.

* `attributes` — the `attributes` record, as an insertion-ordered
  association list (JavaScript string-keyed records preserve insertion order,
  and overwriting an existing key keeps its position).
* `buffers` — the `buffers` array.
* `subscribed` — the buffers on which this geometry has registered its
  `onBufferUpdate` listener (via `buffer.on('update', ...)` and
  `buffer.on('change', ...)` in `addAttribute`; both registrations invoke the
  same handler, so they are modelled as a single subscription).
* `indexBuffer` — the `indexBuffer` field (`none` before any `addIndex`).
* `boundsDirty` — the `_boundsDirty` flag.
* `boundsObjId` — the identity of the readonly `_bounds` object, which is
  allocated once and mutated in place; it never changes over the life of the
  geometry.
* `recomputeCount` — instrumentation: how many times `getGeometryBounds`
  has been invoked by the `bounds` getter.
* `events` — instrumentation: the notifications this geometry has emitted,
  in order.
* `ownListeners` — how many listeners outside parties have registered on
  this geometry itself (cleared by `removeAllListeners` in `destroy`).
* `destroyCalls` — instrumentation: the buffers whose own `destroy()` this
  geometry has invoked, in order.
* `destroyed` — whether `destroy` has run.  `destroy` assigns `null` to
  `attributes`, `buffers`, `indexBuffer` and `_bounds`; the flag stands for
  those fields being null, and each public operation below reproduces the
  JavaScript behaviour of touching a null field. -/
structure Geometry where
  attributes : List (String × Attribute)
  buffers : List Buffer
  subscribed : List Buffer
  indexBuffer : Option Buffer
  boundsDirty : Bool
  boundsObjId : ℕ
  recomputeCount : ℕ
  events : List GEvt
  ownListeners : ℕ
  destroyCalls : List Buffer
  destroyed : Bool
  deriving DecidableEq, Repr

namespace Geometry

/-- A freshly constructed geometry before any attribute or index is added:
`buffers = []`, `attributes = {}`, `_boundsDirty = true`. -/
def fresh : Geometry :=
  { attributes := []
    buffers := []
    subscribed := []
    indexBuffer := none
    boundsDirty := true
    boundsObjId := 0
    recomputeCount := 0
    events := []
    ownListeners := 0
    destroyCalls := []
    destroyed := false }

/-- Assignment `this.attributes[name] = attribute` on an insertion-ordered record:
an existing key keeps its position and gets the new value; a new key is
appended. -/
def setEntry : List (String × Attribute) → String → Attribute → List (String × Attribute)
  | [], n, a => [(n, a)]
  | (k, v) :: t, n, a =>
      if k = n then (k, a) :: t else (k, v) :: setEntry t n a

/-- Lookup `this.attributes[id]` for a live geometry: `none` models the JavaScript
`undefined` for a missing key. -/
def lookupAttr : List (String × Attribute) → String → Option Attribute
  | [], _ => none
  | (k, v) :: t, n => if k = n then some v else lookupAttr t n

/-- Core of `addAttribute(name, attributeOption)` on a live geometry (the
attribute is already normalised; `ensureIsAttribute` wraps non-Buffer specs
into fresh buffers and passes existing `Buffer` objects through unchanged):

```
const bufferIndex = this.buffers.indexOf(attribute.buffer);
if (bufferIndex === -1)
{
    this.buffers.push(attribute.buffer);
    attribute.buffer.on('update', this.onBufferUpdate, this);
    attribute.buffer.on('change', this.onBufferUpdate, this);
}
this.attributes[name] = attribute;
``` -/
def addAttributeCore (g : Geometry) (name : String) (a : Attribute) : Geometry :=
  if a.buffer ∈ g.buffers then
    { g with attributes := setEntry g.attributes name a }
  else
    { g with
        buffers := g.buffers ++ [a.buffer]
        subscribed := g.subscribed ++ [a.buffer]
        attributes := setEntry g.attributes name a }

/-- Core of `addIndex(indexBuffer)` on a live geometry:

```
this.indexBuffer = ensureIsBuffer(indexBuffer, true);
this.buffers.push(this.indexBuffer);
```

No de-duplication against `buffers` and no `on(...)` subscription. -/
def addIndexCore (g : Geometry) (b : Buffer) : Geometry :=
  { g with
      indexBuffer := some b
      buffers := g.buffers ++ [b] }

/-- Handler `onBufferUpdate`: `this._boundsDirty = true; this.emit('update', this);` -/
def onBufferUpdateCore (g : Geometry) : Geometry :=
  { g with
      boundsDirty := true
      events := g.events ++ [GEvt.update] }

/-- A buffer emitting its `update` (content change) or `change` (resize)
notification: the geometry's `onBufferUpdate` handler runs exactly when the
geometry is registered as a listener on that buffer. -/
def bufferNotify (g : Geometry) (b : Buffer) : Geometry :=
  if b ∈ g.subscribed then onBufferUpdateCore g else g

/-- Core of the `bounds` getter on a live geometry.  Returns the new state
and the identity of the returned `Bounds` object:

```
if (!this._boundsDirty) return this._bounds;
this._boundsDirty = false;
return getGeometryBounds(this, 'aPosition', this._bounds);
```

`getGeometryBounds` (the external BoundsCalculator) mutates the cache object
`_bounds` in place and returns it; only the fact that it was invoked
(`recomputeCount`) and the identity of the returned object matter here. -/
def readBoundsCore (g : Geometry) : Geometry × ℕ :=
  if g.boundsDirty = false then (g, g.boundsObjId)
  else
    ({ g with
        boundsDirty := false
        recomputeCount := g.recomputeCount + 1 }, g.boundsObjId)

/-- Method `destroy(destroyBuffers)`:

```
this.emit('destroy', this);
this.removeAllListeners();
if (destroyBuffers)
{
    this.buffers.forEach((buffer) => buffer.destroy());
}
(this.attributes as null) = null;
(this.buffers as null) = null;
(this.indexBuffer as null) = null;
(this._bounds as null) = null;
```

`removeAllListeners()` clears the listeners registered *on the geometry
itself*; the listeners the geometry registered on each buffer's emitter are
untouched, so `subscribed` is preserved. -/
def destroyCore (g : Geometry) (destroyBuffers : Bool) : Geometry :=
  { g with
      events := g.events ++ [GEvt.destroyEvt]
      ownListeners := 0
      destroyCalls := g.destroyCalls ++ (if destroyBuffers then g.buffers else [])
      destroyed := true }

/-- The constructor body for `new Geometry({ attributes, indexBuffer })`:
each attribute is added in order with `addAttribute`, then the optional index
buffer with `addIndex`. -/
def create (attrs : List (String × Attribute)) (idx : Option Buffer) : Geometry :=
  let g := attrs.foldl (fun g p => addAttributeCore g p.1 p.2) fresh
  match idx with
  | none => g
  | some b => addIndexCore g b

/-! State outside the live core: after `destroy`, the fields `attributes`,
`buffers`, `indexBuffer` and `_bounds` are null, and each public method
behaves as JavaScript does on null. -/

/-- A thrown JavaScript error. -/
inductive JsErr where
  | typeError
  deriving DecidableEq, Repr

/-- Public `addAttribute`: after destroy, `this.buffers.indexOf(...)`
dereferences the nulled `buffers` and throws. -/
def addAttribute (g : Geometry) (name : String) (a : Attribute) :
    Except JsErr Geometry :=
  if g.destroyed then .error .typeError
  else .ok (addAttributeCore g name a)

/-- Public `addIndex`: after destroy, `this.buffers.push(...)` dereferences
the nulled `buffers` and throws. -/
def addIndex (g : Geometry) (b : Buffer) : Except JsErr Geometry :=
  if g.destroyed then .error .typeError
  else .ok (addIndexCore g b)

/-- Public `getAttribute(id)`: `return this.attributes[id];` — after destroy
the property access `null[id]` throws. -/
def getAttribute (g : Geometry) (id : String) : Except JsErr (Option Attribute) :=
  if g.destroyed then .error .typeError
  else .ok (lookupAttr g.attributes id)

/-- Method `getSize` on a live geometry:

```
for (const i in this.attributes)
{
    const attribute = this.attributes[i];
    const buffer = attribute.buffer;
    return (buffer.data as any).length / ((attribute.stride / 4) || attribute.size);
}
return 0;
```

The loop body returns on the *first* attribute in insertion order.  The
denominator is `(stride / 4) || size`: `undefined / 4` is `NaN` (falsy) and
`0 / 4` is `0` (falsy), so `size` is used exactly when `stride` is absent or
zero.  An absent `size` in the fallback position leaves the denominator
`undefined`, and `length / undefined` is `NaN`, the same as division by NaN,
so `undefined` is embedded as `JsNum.nan` here. -/
def getSizeCore (g : Geometry) : JsNum :=
  match g.attributes with
  | [] => .num 0
  | (_, a) :: _ =>
      let strideOver4 : JsNum :=
        match a.stride with
        | none => .nan
        | some s => .num (s / 4)
      let sizeVal : JsNum :=
        match a.size with
        | none => .nan
        | some k => .num k
      JsNum.div (.num (a.buffer.dataLen : ℚ)) (strideOver4.jsOr sizeVal)

/-- Public `getSize`: after destroy, `for (const i in null)` iterates zero
times, so the method silently returns `0` instead of throwing. -/
def getSize (g : Geometry) : Except JsErr JsNum :=
  if g.destroyed then .ok (.num 0)
  else .ok (getSizeCore g)

/-- Public `bounds` getter.  Returns the new state together with the identity
of the returned object (`none` models the nulled `_bounds` being returned
after destroy).

Modelled from the spec for the destroyed-and-dirty case: `getGeometryBounds`
(the external BoundsCalculator, not part of the shown core) reads the
attribute named by the position convention from the geometry, which
dereferences the nulled `attributes` and throws. -/
def boundsGet (g : Geometry) : Except JsErr (Geometry × Option ℕ) :=
  if g.boundsDirty = false then
    .ok (g, if g.destroyed then none else some g.boundsObjId)
  else if g.destroyed then .error .typeError
  else
    .ok ({ g with
            boundsDirty := false
            recomputeCount := g.recomputeCount + 1 }, some g.boundsObjId)

end Geometry

/-! ## Operation traces

A geometry reachable from `new Geometry()` by the public mutating and
observing operations, used to state properties of the form "never, over the
life of a Geometry". -/

/-- One public operation on a live geometry (or an incoming buffer
notification). -/
inductive GOp where
  | addAttr (name : String) (a : Attribute)
  | addIdx (b : Buffer)
  | notify (b : Buffer)
  | readB
  deriving DecidableEq, Repr

/-- Apply one operation. -/
def applyOp (g : Geometry) : GOp → Geometry
  | .addAttr n a => Geometry.addAttributeCore g n a
  | .addIdx b => Geometry.addIndexCore g b
  | .notify b => Geometry.bufferNotify g b
  | .readB => (Geometry.readBoundsCore g).1

/-- Run a trace of operations from a freshly constructed geometry. -/
def execOps (ops : List GOp) : Geometry :=
  ops.foldl applyOp Geometry.fresh

/-- Fold of `addAttribute` calls from a fresh geometry (the constructor's
attribute loop). -/
def execAdds (ps : List (String × Attribute)) : Geometry :=
  ps.foldl (fun g p => Geometry.addAttributeCore g p.1 p.2) Geometry.fresh

/-! ## The spec's reading of `getSize` (for comparison with the code)

The claim states: `floor(bufferElementCount / perVertexElementCount)`, where
`perVertexElementCount` is the attribute's declared `size`, falling back to
`strideBytes / 4` only when `size` is absent. -/

/-- Claimed `getSize`, written from the claim's words, not from the source:
floor of the element count over the declared `size`, with `stride / 4` used
only when `size` is absent.  (The claim does not say what happens when both
are absent; `0` is returned in that unused case.) -/
def getSizeSpec (g : Geometry) : ℚ :=
  match g.attributes with
  | [] => 0
  | (_, a) :: _ =>
      match a.size with
      | some k => ((Int.floor ((a.buffer.dataLen : ℚ) / k) : ℤ) : ℚ)
      | none =>
          match a.stride with
          | some s => ((Int.floor ((a.buffer.dataLen : ℚ) / (s / 4)) : ℤ) : ℚ)
          | none => 0

/-! ## Concrete objects used by witnesses and counterexamples -/

/-- A buffer wrapping the 8-element array `[0,0, 0,100, 100,100, 100,0]`. -/
def bufA : Buffer := ⟨0, 8⟩

/-- The attribute `{ buffer: bufA, size: 2 }` (no stride). -/
def attrA : Attribute := { buffer := bufA, size := some 2 }

/-- A second, distinct buffer (a 6-element index array). -/
def bufB : Buffer := ⟨1, 6⟩

/-- The size-inference example of the spec: a geometry with attribute
`aPosition` backed by the 8-element position array with `size = 2`. -/
def sizeExampleGeometry : Geometry :=
  Geometry.addAttributeCore Geometry.fresh "aPosition" attrA

/-- A buffer with 13 data elements, for exercising `getSize` with both
`stride` and `size` set. -/
def bufC : Buffer := ⟨2, 13⟩

/-- An attribute carrying both a stride (8 bytes) and a size (3). -/
def attrC : Attribute := { buffer := bufC, stride := some 8, size := some 3 }

/-- A geometry whose only attribute has both `stride` and `size`. -/
def strideSizeGeometry : Geometry :=
  Geometry.addAttributeCore Geometry.fresh "aPosition" attrC

/-- A geometry where the *same* buffer is first added as the index buffer and
then referenced by an attribute: `addAttribute` finds it already in `buffers`
and therefore never subscribes to it. -/
def indexAliasedGeometry : Geometry :=
  Geometry.addAttributeCore (Geometry.addIndexCore Geometry.fresh bufA) "aPosition" attrA

/-- The index-aliased geometry after one bounds read (cache clean). -/
def indexAliasedClean : Geometry :=
  (Geometry.readBoundsCore indexAliasedGeometry).1

/-- A one-attribute geometry whose bounds have been read (cache clean). -/
def cleanGeometry : Geometry :=
  (Geometry.readBoundsCore sizeExampleGeometry).1

/-- The clean one-attribute geometry after `destroy(false)`. -/
def destroyedFalseGeometry : Geometry :=
  Geometry.destroyCore cleanGeometry false

/-- The one-attribute geometry after `destroy(true)` (never read, cache still
dirty). -/
def destroyedTrueGeometry : Geometry :=
  Geometry.destroyCore sizeExampleGeometry true

/-! ## Helper lemmas on `JsNum` -/

/-- Division of finite numbers with a nonzero divisor is finite exact
division. -/
theorem JsNum.div_num_of_ne (a b : ℚ) (hb : b ≠ 0) :
    JsNum.div (.num a) (.num b) = .num (a / b) := by
  simp [JsNum.div, hb]

/-- Division of a finite number by zero yields NaN or a signed infinity. -/
theorem JsNum.div_num_zero (a : ℚ) :
    JsNum.div (.num a) (.num 0) =
      if a = 0 then JsNum.nan else if 0 < a then JsNum.posInf else JsNum.negInf := by
  simp [JsNum.div]

/-- Multiplication of finite numbers. -/
theorem JsNum.mul_num (a b : ℚ) :
    JsNum.mul (.num a) (.num b) = .num (a * b) := rfl

/-- Addition of finite numbers. -/
theorem JsNum.add_num (a b : ℚ) :
    JsNum.add (.num a) (.num b) = .num (a + b) := rfl

/-- Division by zero never produces a finite value. -/
theorem JsNum.div_num_zero_not_finite (a : ℚ) :
    (JsNum.div (.num a) (.num 0)).isFinite = false := by
  rcases lt_trichotomy a 0 with h | h | h
  · simp [JsNum.div_num_zero, h.ne, not_lt.mpr h.le, JsNum.isFinite]
  · simp [JsNum.div_num_zero, h, JsNum.isFinite]
  · simp [JsNum.div_num_zero, h, h.ne.symm, JsNum.isFinite]

/-! ## Claims about the color-dodge blend-mode variant -/

/-- C1: for the color-dodge variant, the gl and gpu scalar blend functions
are the same mathematical function of `(base, blend)`: for every input with
`blend ≠ 1`, both evaluate to `base / (1 - blend)`. -/
theorem colorDodge_backend_equivalence (base blend : ℚ) (h : blend ≠ 1) :
    colorDodge_gl base blend = colorDodge_gpu base blend ∧
    colorDodge_gl base blend = JsNum.num (base / (1 - blend)) := by
  have h1 : (1 : ℚ) - blend ≠ 0 := sub_ne_zero.mpr (Ne.symm h)
  exact ⟨rfl, JsNum.div_num_of_ne base (1 - blend) h1⟩

/-- Witness for C1 at `base = 1/2`, `blend = 1/4`. -/
theorem colorDodge_backend_equivalence_witness :
    colorDodge_gl (1/2) (1/4) = colorDodge_gpu (1/2) (1/4) ∧
    colorDodge_gl (1/2) (1/4) = JsNum.num ((1/2) / (1 - 1/4)) :=
  colorDodge_backend_equivalence (1/2) (1/4) (by norm_num)

/-- C8: the color-dodge scalar function divides by `1 - blend` with no guard:
at `blend = 1` the denominator is zero, both backends reach the division and
return the same non-finite value unclamped; for `blend ≠ 1` both backends are
well defined and equal `base / (1 - blend)`. -/
theorem colorDodge_unguarded_division (base blend : ℚ) :
    ((1 : ℚ) - blend = 0 ↔ blend = 1) ∧
    (blend = 1 →
      colorDodge_gl base blend = colorDodge_gpu base blend ∧
      (colorDodge_gl base blend).isFinite = false) ∧
    (blend ≠ 1 →
      colorDodge_gl base blend = JsNum.num (base / (1 - blend)) ∧
      colorDodge_gpu base blend = JsNum.num (base / (1 - blend))) := by
  refine ⟨sub_eq_zero.trans eq_comm, fun h1 => ⟨rfl, ?_⟩, fun h1 => ?_⟩
  · subst h1
    have hz : colorDodge_gl base 1 = JsNum.div (.num base) (.num 0) := by
      unfold colorDodge_gl
      norm_num
    rw [hz]
    exact JsNum.div_num_zero_not_finite base
  · have hne : (1 : ℚ) - blend ≠ 0 := sub_ne_zero.mpr (Ne.symm h1)
    exact ⟨JsNum.div_num_of_ne base (1 - blend) hne,
           JsNum.div_num_of_ne base (1 - blend) hne⟩

/-- Witness for C8 at `base = 2` with `blend = 1` (boundary) and at
`base = 3` with `blend = 0` (regular point). -/
theorem colorDodge_unguarded_division_witness :
    (colorDodge_gl 2 1 = colorDodge_gpu 2 1 ∧
     (colorDodge_gl 2 1).isFinite = false) ∧
    (colorDodge_gl 3 0 = JsNum.num (3 / (1 - 0)) ∧
     colorDodge_gpu 3 0 = JsNum.num (3 / (1 - 0))) :=
  ⟨(colorDodge_unguarded_division 2 1).2.1 rfl,
   (colorDodge_unguarded_division 3 0).2.2 (by norm_num)⟩

/-- C7: for each backend of the color-dodge variant, the vector blend applies
the scalar blend function to each of the r, g, b channels and interpolates
back toward the base color as `blended * opacity + base * (1 - opacity)`
(with `opacity` the foreground alpha), and the main fragment writes
`vec4(blendColorDodge(back.rgb, front.rgb, front.a), uBlend)` with the
blend-strength uniform as the output alpha. -/
theorem blendColorDodge_channelwise_lerp (base blend : Vec3) (opacity : ℚ)
    (back front : Vec4) (uBlend : ℚ)
    (hr : blend.r ≠ 1) (hg : blend.g ≠ 1) (hb : blend.b ≠ 1) :
    blendColorDodge_gl base blend opacity = blendColorDodge_gpu base blend opacity ∧
    blendColorDodge_gl base blend opacity =
      ⟨.num (base.r / (1 - blend.r) * opacity + base.r * (1 - opacity)),
       .num (base.g / (1 - blend.g) * opacity + base.g * (1 - opacity)),
       .num (base.b / (1 - blend.b) * opacity + base.b * (1 - opacity))⟩ ∧
    colorDodgeMain_gl back front uBlend =
      ⟨(blendColorDodge_gl back.rgb front.rgb front.a).r,
       (blendColorDodge_gl back.rgb front.rgb front.a).g,
       (blendColorDodge_gl back.rgb front.rgb front.a).b,
       .num uBlend⟩ ∧
    colorDodgeMain_gpu back front uBlend =
      ⟨(blendColorDodge_gpu back.rgb front.rgb front.a).r,
       (blendColorDodge_gpu back.rgb front.rgb front.a).g,
       (blendColorDodge_gpu back.rgb front.rgb front.a).b,
       .num uBlend⟩ := by
  have er : (1 : ℚ) - blend.r ≠ 0 := sub_ne_zero.mpr (Ne.symm hr)
  have eg : (1 : ℚ) - blend.g ≠ 0 := sub_ne_zero.mpr (Ne.symm hg)
  have eb : (1 : ℚ) - blend.b ≠ 0 := sub_ne_zero.mpr (Ne.symm hb)
  refine ⟨rfl, ?_, rfl, rfl⟩
  simp [blendColorDodge_gl, colorDodge_gl, JVec3.scale, JVec3.addV, Vec3.toJ,
        JsNum.div_num_of_ne _ _ er, JsNum.div_num_of_ne _ _ eg,
        JsNum.div_num_of_ne _ _ eb, JsNum.mul_num, JsNum.add_num]

/-- Witness for C7: the per-channel lerp conjunct at
`base = (1, 0, 1/2)`, `blend = (1/2, 0, 1/2)`, `opacity = 1/2`. -/
theorem blendColorDodge_channelwise_lerp_witness :
    blendColorDodge_gl ⟨1, 0, 1/2⟩ ⟨1/2, 0, 1/2⟩ (1/2) =
      ⟨.num ((1 : ℚ) / (1 - 1/2) * (1/2) + 1 * (1 - 1/2)),
       .num ((0 : ℚ) / (1 - 0) * (1/2) + 0 * (1 - 1/2)),
       .num ((1/2 : ℚ) / (1 - 1/2) * (1/2) + (1/2) * (1 - 1/2))⟩ :=
  (blendColorDodge_channelwise_lerp ⟨1, 0, 1/2⟩ ⟨1/2, 0, 1/2⟩ (1/2)
    ⟨0, 0, 0, 0⟩ ⟨0, 0, 0, 0⟩ 0 (by norm_num) (by norm_num) (by norm_num)).2.1

/-! ## Helper lemmas on the Geometry operations -/

/-- Adding an attribute never removes a buffer from `buffers`. -/
theorem addAttributeCore_buffers_mono (g : Geometry) (n : String) (a : Attribute)
    (b : Buffer) (hb : b ∈ g.buffers) :
    b ∈ (Geometry.addAttributeCore g n a).buffers := by
  unfold Geometry.addAttributeCore
  split <;> simp [hb]

/-- After adding an attribute, its buffer is in `buffers`. -/
theorem addAttributeCore_buffer_mem (g : Geometry) (n : String) (a : Attribute) :
    a.buffer ∈ (Geometry.addAttributeCore g n a).buffers := by
  unfold Geometry.addAttributeCore
  split
  · simpa
  · simp

/-- Adding an attribute keeps `buffers` duplicate-free. -/
theorem addAttributeCore_buffers_nodup (g : Geometry) (n : String) (a : Attribute)
    (h : g.buffers.Nodup) :
    (Geometry.addAttributeCore g n a).buffers.Nodup := by
  unfold Geometry.addAttributeCore
  split
  · simpa
  · rename_i hmem
    simp [List.nodup_append, h, hmem]

/-- Adding an attribute leaves the bounds-dirty flag unchanged. -/
theorem addAttributeCore_boundsDirty (g : Geometry) (n : String) (a : Attribute) :
    (Geometry.addAttributeCore g n a).boundsDirty = g.boundsDirty := by
  unfold Geometry.addAttributeCore
  split <;> rfl

/-- Adding an attribute whose buffer is new appends it to the subscription
list; otherwise the subscriptions are untouched. -/
theorem addAttributeCore_subscribed (g : Geometry) (n : String) (a : Attribute) :
    (Geometry.addAttributeCore g n a).subscribed =
      if a.buffer ∈ g.buffers then g.subscribed else g.subscribed ++ [a.buffer] := by
  unfold Geometry.addAttributeCore
  split <;> simp_all

/-- Folding `addAttribute` preserves membership of `buffers`. -/
theorem foldlAdd_buffers_mono (ps : List (String × Attribute)) (g : Geometry)
    (b : Buffer) (hb : b ∈ g.buffers) :
    b ∈ (ps.foldl (fun g p => Geometry.addAttributeCore g p.1 p.2) g).buffers := by
  induction ps generalizing g with
  | nil => exact hb
  | cons p t ih =>
      exact ih _ (addAttributeCore_buffers_mono g p.1 p.2 b hb)

/-- Folding `addAttribute` preserves `buffers` being duplicate-free. -/
theorem foldlAdd_buffers_nodup (ps : List (String × Attribute)) (g : Geometry)
    (h : g.buffers.Nodup) :
    (ps.foldl (fun g p => Geometry.addAttributeCore g p.1 p.2) g).buffers.Nodup := by
  induction ps generalizing g with
  | nil => exact h
  | cons p t ih =>
      exact ih _ (addAttributeCore_buffers_nodup g p.1 p.2 h)

/-- A buffer referenced by some attribute of the fold ends up in `buffers`. -/
theorem foldlAdd_buffers_mem (ps : List (String × Attribute)) (g : Geometry)
    (b : Buffer) (h : ∃ p ∈ ps, p.2.buffer = b) :
    b ∈ (ps.foldl (fun g p => Geometry.addAttributeCore g p.1 p.2) g).buffers := by
  induction ps generalizing g with
  | nil => simp at h
  | cons p t ih =>
      rcases h with ⟨q, hq, hqb⟩
      rcases List.mem_cons.mp hq with rfl | hqt
      · subst hqb
        exact foldlAdd_buffers_mono t _ _ (addAttributeCore_buffer_mem g q.1 q.2)
      · exact ih _ ⟨q, hqt, hqb⟩

/-- Folding `addAttribute` leaves the bounds-dirty flag unchanged. -/
theorem foldlAdd_boundsDirty (ps : List (String × Attribute)) (g : Geometry) :
    (ps.foldl (fun g p => Geometry.addAttributeCore g p.1 p.2) g).boundsDirty =
      g.boundsDirty := by
  induction ps generalizing g with
  | nil => rfl
  | cons p t ih =>
      rw [List.foldl_cons, ih, addAttributeCore_boundsDirty]

/-! ## Claims about the Geometry -/

/-- C3: any number of `addAttribute` calls whose specs resolve to the same
underlying buffer (by identity) leave that buffer exactly once in `buffers`. -/
theorem addAttribute_buffer_dedup (ps : List (String × Attribute)) (b : Buffer)
    (h : ∃ p ∈ ps, p.2.buffer = b) :
    List.count b (execAdds ps).buffers = 1 :=
  List.count_eq_one_of_mem
    (foldlAdd_buffers_nodup ps Geometry.fresh (by simp [Geometry.fresh]))
    (foldlAdd_buffers_mem ps Geometry.fresh b h)

/-- Witness for C3: the same buffer added under the two attribute names
`aPosition` and `aUv` appears exactly once. -/
theorem addAttribute_buffer_dedup_witness :
    List.count bufA (execAdds [("aPosition", attrA), ("aUv", attrA)]).buffers = 1 :=
  addAttribute_buffer_dedup [("aPosition", attrA), ("aUv", attrA)] bufA
    ⟨("aPosition", attrA), by simp, rfl⟩

/-- C9: replacing an entry never removes the previously referenced buffer:
overwriting an attribute keeps every existing buffer in `buffers`, and a
second `addIndex` replaces `indexBuffer` and appends the new buffer while the
old index buffer stays. -/
theorem replace_retains_buffers (g : Geometry) (n : String) (a : Attribute)
    (b bOld : Buffer) :
    (b ∈ g.buffers → b ∈ (Geometry.addAttributeCore g n a).buffers) ∧
    (Geometry.addIndexCore g b).indexBuffer = some b ∧
    (Geometry.addIndexCore g b).buffers = g.buffers ++ [b] ∧
    (g.indexBuffer = some bOld → bOld ∈ g.buffers →
      bOld ∈ (Geometry.addIndexCore g b).buffers) := by
  refine ⟨fun hb => addAttributeCore_buffers_mono g n a b hb, rfl, rfl, ?_⟩
  intro _ hmem
  simp [Geometry.addIndexCore, hmem]

/-- Witness for C9: overwrite `aPosition` (old buffer retained) and call
`addIndex` a second time (old index buffer retained). -/
theorem replace_retains_buffers_witness :
    (bufA ∈ (Geometry.addAttributeCore (Geometry.addIndexCore sizeExampleGeometry bufB)
        "aPosition" attrC).buffers) ∧
    (Geometry.addIndexCore (Geometry.addIndexCore sizeExampleGeometry bufB) bufC).indexBuffer
      = some bufC ∧
    (Geometry.addIndexCore (Geometry.addIndexCore sizeExampleGeometry bufB) bufC).buffers
      = (Geometry.addIndexCore sizeExampleGeometry bufB).buffers ++ [bufC] ∧
    bufB ∈ (Geometry.addIndexCore (Geometry.addIndexCore sizeExampleGeometry bufB) bufC).buffers := by
  have T := replace_retains_buffers (Geometry.addIndexCore sizeExampleGeometry bufB)
    "aPosition" attrC bufA bufB
  have T2 := replace_retains_buffers (Geometry.addIndexCore sizeExampleGeometry bufB)
    "aPosition" attrC bufC bufB
  exact ⟨T.1 (by decide), T2.2.1, T2.2.2.1, T2.2.2.2 (by decide) (by decide)⟩

/-- No operation other than an `addAttribute` resolving to buffer `b` can
subscribe the geometry to `b`. -/
theorem applyOp_subscribed_preserve (g : Geometry) (op : GOp) (b : Buffer)
    (hb : b ∉ g.subscribed) (hop : ∀ n a, op = GOp.addAttr n a → a.buffer ≠ b) :
    b ∉ (applyOp g op).subscribed := by
  cases op with
  | addAttr n a =>
      have hab : b ≠ a.buffer := fun hh => (hop n a rfl) hh.symm
      simp only [applyOp, addAttributeCore_subscribed]
      split
      · exact hb
      · simp [hb, hab]
  | addIdx b2 => exact hb
  | notify b2 =>
      simp only [applyOp, Geometry.bufferNotify]
      split
      · exact hb
      · exact hb
  | readB =>
      simp only [applyOp, Geometry.readBoundsCore]
      split
      · exact hb
      · exact hb

/-- Over a whole trace without an `addAttribute` resolving to `b`, the
geometry never subscribes to `b`. -/
theorem foldl_subscribed_preserve (ops : List GOp) (g : Geometry) (b : Buffer)
    (hb : b ∉ g.subscribed)
    (h : ∀ n a, GOp.addAttr n a ∈ ops → a.buffer ≠ b) :
    b ∉ (ops.foldl applyOp g).subscribed := by
  induction ops generalizing g with
  | nil => exact hb
  | cons op t ih =>
      refine ih _ ?_ fun n a hmem => h n a (List.mem_cons_of_mem op hmem)
      exact applyOp_subscribed_preserve g op b hb fun n a hop => h n a (hop ▸ List.mem_cons_self op t)

/-- A notification from an unsubscribed buffer is a no-op for the geometry. -/
theorem bufferNotify_not_subscribed (g : Geometry) (b : Buffer)
    (h : b ∉ g.subscribed) : Geometry.bufferNotify g b = g := by
  simp [Geometry.bufferNotify, h]

/-- C10: `addIndex` never subscribes the geometry to the index buffer: over
any trace of operations none of whose `addAttribute` calls resolves to `b`,
the geometry is not subscribed to `b`, so a notification from `b` changes
nothing (no dirty flag, no `update` emission); and `addIndex` performs no
de-duplication, appending a duplicate entry when the buffer is already in
`buffers`. -/
theorem addIndex_no_subscription (ops : List GOp) (b : Buffer) (g : Geometry)
    (h : ∀ n a, GOp.addAttr n a ∈ ops → a.buffer ≠ b) :
    b ∉ (execOps ops).subscribed ∧
    Geometry.bufferNotify (execOps ops) b = execOps ops ∧
    (Geometry.addIndexCore g b).subscribed = g.subscribed ∧
    (Geometry.addIndexCore g b).buffers = g.buffers ++ [b] ∧
    (b ∈ g.buffers → 1 < List.count b (Geometry.addIndexCore g b).buffers) := by
  have hsub : b ∉ (execOps ops).subscribed :=
    foldl_subscribed_preserve ops Geometry.fresh b (by simp [Geometry.fresh]) h
  refine ⟨hsub, bufferNotify_not_subscribed _ _ hsub, rfl, rfl, fun hmem => ?_⟩
  have hc : 0 < List.count b g.buffers := List.count_pos_iff.mpr hmem
  have h1 : List.count b [b] = 1 := by simp
  simp only [Geometry.addIndexCore, List.count_append, h1]
  omega

/-- Witness for C10: a trace that adds `bufB` as index buffer and then
receives a notification from it; the second `addIndex` of `bufB` appends a
duplicate. -/
theorem addIndex_no_subscription_witness :
    bufB ∉ (execOps [GOp.addIdx bufB, GOp.notify bufB]).subscribed ∧
    Geometry.bufferNotify (execOps [GOp.addIdx bufB, GOp.notify bufB]) bufB =
      execOps [GOp.addIdx bufB, GOp.notify bufB] ∧
    (Geometry.addIndexCore (Geometry.addIndexCore Geometry.fresh bufB) bufB).subscribed =
      (Geometry.addIndexCore Geometry.fresh bufB).subscribed ∧
    (Geometry.addIndexCore (Geometry.addIndexCore Geometry.fresh bufB) bufB).buffers =
      (Geometry.addIndexCore Geometry.fresh bufB).buffers ++ [bufB] ∧
    1 < List.count bufB
        (Geometry.addIndexCore (Geometry.addIndexCore Geometry.fresh bufB) bufB).buffers := by
  have T := addIndex_no_subscription [GOp.addIdx bufB, GOp.notify bufB] bufB
    (Geometry.addIndexCore Geometry.fresh bufB)
    (by intro n a hmem; simp at hmem)
  exact ⟨T.1, T.2.1, T.2.2.1, T.2.2.2.1, T.2.2.2.2 (by decide)⟩

/-- Counterexample to C2 as stated: the same buffer first added via
`addIndex` and then referenced by the attribute `aPosition` is never
subscribed, so after a bounds read its change notification does *not* set the
dirty flag, although the buffer is referenced by an attribute. -/
theorem bounds_dirty_notify_cex :
    Geometry.lookupAttr indexAliasedClean.attributes "aPosition" = some attrA ∧
    attrA.buffer = bufA ∧
    indexAliasedClean.boundsDirty = false ∧
    (Geometry.bufferNotify indexAliasedClean bufA).boundsDirty = false := by decide

/-- C2 (amended): the bounds cache obeys
`Dirty -> (bounds read) -> Clean -> (subscribed buffer change) -> Dirty`:
dirty at construction; a read while dirty performs exactly one recomputation
and clears the flag; a read while clean returns the same cached object with
no recomputation and no state change; a notification from a *subscribed*
buffer sets the flag again; and `addAttribute` subscribes exactly the buffers
it did not find already in `buffers`. -/
theorem bounds_cache_state_machine
    (attrs : List (String × Attribute)) (idx : Option Buffer)
    (gDirty gClean gSub gNew : Geometry) (b : Buffer) (n : String) (a : Attribute) :
    (Geometry.create attrs idx).boundsDirty = true ∧
    (gDirty.boundsDirty = true →
      Geometry.readBoundsCore gDirty =
        ({ gDirty with
            boundsDirty := false
            recomputeCount := gDirty.recomputeCount + 1 }, gDirty.boundsObjId)) ∧
    (gClean.boundsDirty = false →
      Geometry.readBoundsCore gClean = (gClean, gClean.boundsObjId)) ∧
    (b ∈ gSub.subscribed →
      (Geometry.bufferNotify gSub b).boundsDirty = true ∧
      (Geometry.bufferNotify gSub b).events = gSub.events ++ [GEvt.update]) ∧
    (a.buffer ∉ gNew.buffers →
      (Geometry.addAttributeCore gNew n a).subscribed = gNew.subscribed ++ [a.buffer]) := by
  refine ⟨?_, fun hd => ?_, fun hc => ?_, fun hs => ?_, fun hn => ?_⟩
  · cases idx <;>
      simp [Geometry.create, Geometry.addIndexCore, foldlAdd_boundsDirty, Geometry.fresh]
  · simp [Geometry.readBoundsCore, hd]
  · simp [Geometry.readBoundsCore, hc]
  · simp [Geometry.bufferNotify, hs, Geometry.onBufferUpdateCore]
  · simp [addAttributeCore_subscribed, hn]

/-- Witness for C2 (amended), at a one-attribute geometry: fresh is dirty, a
dirty read recomputes once and cleans, a clean read is the identity, a
subscribed buffer notification re-dirties, and a new buffer is subscribed. -/
theorem bounds_cache_state_machine_witness :
    (Geometry.create [("aPosition", attrA)] none).boundsDirty = true ∧
    Geometry.readBoundsCore Geometry.fresh =
      ({ Geometry.fresh with
          boundsDirty := false
          recomputeCount := Geometry.fresh.recomputeCount + 1 }, Geometry.fresh.boundsObjId) ∧
    Geometry.readBoundsCore cleanGeometry = (cleanGeometry, cleanGeometry.boundsObjId) ∧
    ((Geometry.bufferNotify sizeExampleGeometry bufA).boundsDirty = true ∧
      (Geometry.bufferNotify sizeExampleGeometry bufA).events =
        sizeExampleGeometry.events ++ [GEvt.update]) ∧
    (Geometry.addAttributeCore Geometry.fresh "aUv" attrA).subscribed =
      Geometry.fresh.subscribed ++ [attrA.buffer] := by
  have T := bounds_cache_state_machine [("aPosition", attrA)] none
    Geometry.fresh cleanGeometry sizeExampleGeometry Geometry.fresh bufA "aUv" attrA
  exact ⟨T.1, T.2.1 rfl, T.2.2.1 (by decide), T.2.2.2.1 (by decide), T.2.2.2.2 (by decide)⟩

/-- Counterexample to C5 as stated: after `destroy(false)` the buffer-side
subscriptions are still in place (`removeAllListeners` only clears the
geometry's own listeners), so a change notification from a previously
referenced buffer *does* invoke the geometry's `onBufferUpdate` handler: it
re-dirties the bounds flag and emits `update`. -/
theorem destroy_listener_leak_cex :
    destroyedFalseGeometry.destroyed = true ∧
    destroyedFalseGeometry.subscribed = [bufA] ∧
    destroyedFalseGeometry.boundsDirty = false ∧
    (Geometry.bufferNotify destroyedFalseGeometry bufA).boundsDirty = true ∧
    (Geometry.bufferNotify destroyedFalseGeometry bufA).events =
      destroyedFalseGeometry.events ++ [GEvt.update] := by decide

/-- C5 (amended): `destroy(destroyBuffers)` emits the `destroy` notification,
detaches the geometry's own listeners but *not* its subscriptions on the
referenced buffers, and calls each buffer's own destroy iff `destroyBuffers`
is true; consequently after `destroy(false)` a change notification from a
subscribed buffer still invokes the geometry's `onBufferUpdate` handler. -/
theorem destroy_effects (g g2 : Geometry) (f : Bool) (b : Buffer) :
    (Geometry.destroyCore g f).events = g.events ++ [GEvt.destroyEvt] ∧
    (Geometry.destroyCore g f).ownListeners = 0 ∧
    (Geometry.destroyCore g f).subscribed = g.subscribed ∧
    (Geometry.destroyCore g f).destroyCalls =
      g.destroyCalls ++ (if f then g.buffers else []) ∧
    (b ∈ g2.subscribed →
      (Geometry.bufferNotify (Geometry.destroyCore g2 false) b).boundsDirty = true ∧
      (Geometry.bufferNotify (Geometry.destroyCore g2 false) b).events =
        (Geometry.destroyCore g2 false).events ++ [GEvt.update]) := by
  refine ⟨rfl, rfl, rfl, rfl, fun hb => ?_⟩
  have hb2 : b ∈ (Geometry.destroyCore g2 false).subscribed := hb
  simp [Geometry.bufferNotify, hb2, Geometry.onBufferUpdateCore]

/-- Witness for C5 (amended) at the one-attribute geometry with
`destroyBuffers = true` (and the notification part after `destroy(false)`). -/
theorem destroy_effects_witness :
    (Geometry.destroyCore sizeExampleGeometry true).events =
      sizeExampleGeometry.events ++ [GEvt.destroyEvt] ∧
    (Geometry.destroyCore sizeExampleGeometry true).ownListeners = 0 ∧
    (Geometry.destroyCore sizeExampleGeometry true).subscribed =
      sizeExampleGeometry.subscribed ∧
    (Geometry.destroyCore sizeExampleGeometry true).destroyCalls =
      sizeExampleGeometry.destroyCalls ++
        (if true then sizeExampleGeometry.buffers else []) ∧
    ((Geometry.bufferNotify (Geometry.destroyCore sizeExampleGeometry false) bufA).boundsDirty
        = true ∧
      (Geometry.bufferNotify (Geometry.destroyCore sizeExampleGeometry false) bufA).events =
        (Geometry.destroyCore sizeExampleGeometry false).events ++ [GEvt.update]) := by
  have T := destroy_effects sizeExampleGeometry sizeExampleGeometry true bufA
  exact ⟨T.1, T.2.1, T.2.2.1, T.2.2.2.1, T.2.2.2.2 (by decide)⟩

/-- Counterexample to C6 as stated: after `destroy(true)`, `getSize` does not
fail — `for..in` over the nulled `attributes` iterates zero times, so it
silently returns the normal value `0`. -/
theorem destroyed_getSize_cex :
    destroyedTrueGeometry.destroyed = true ∧
    Geometry.getSize destroyedTrueGeometry = .ok (JsNum.num 0) :=
  ⟨rfl, by simp [Geometry.getSize, show destroyedTrueGeometry.destroyed = true from rfl]⟩

/-- C6 (amended): after destroy, `addAttribute`, `addIndex` and
`getAttribute` throw on the nulled collections, and a bounds read while the
cache is dirty throws inside the bounds calculator; but `getSize` silently
returns `0`, and a bounds read while the cache is clean silently returns the
nulled cache object. -/
theorem destroyed_operation_semantics (g g2 : Geometry) (n id : String)
    (a : Attribute) (b : Buffer)
    (hd : g.destroyed = true) (hd2 : g2.destroyed = true) :
    Geometry.addAttribute g n a = .error .typeError ∧
    Geometry.addIndex g b = .error .typeError ∧
    Geometry.getAttribute g id = .error .typeError ∧
    Geometry.getSize g = .ok (JsNum.num 0) ∧
    (g.boundsDirty = true → Geometry.boundsGet g = .error .typeError) ∧
    (g2.boundsDirty = false → Geometry.boundsGet g2 = .ok (g2, none)) := by
  refine ⟨?_, ?_, ?_, ?_, fun hdirty => ?_, fun hclean => ?_⟩
  · simp [Geometry.addAttribute, hd]
  · simp [Geometry.addIndex, hd]
  · simp [Geometry.getAttribute, hd]
  · simp [Geometry.getSize, hd]
  · simp [Geometry.boundsGet, hdirty, hd]
  · simp [Geometry.boundsGet, hclean, hd2]

/-- Witness for C6 (amended): the one-attribute geometry after
`destroy(true)` (cache still dirty), and after a bounds read then
`destroy(false)` (cache clean). -/
theorem destroyed_operation_semantics_witness :
    Geometry.addAttribute destroyedTrueGeometry "aUv" attrA = .error .typeError ∧
    Geometry.addIndex destroyedTrueGeometry bufB = .error .typeError ∧
    Geometry.getAttribute destroyedTrueGeometry "aPosition" = .error .typeError ∧
    Geometry.getSize destroyedTrueGeometry = .ok (JsNum.num 0) ∧
    Geometry.boundsGet destroyedTrueGeometry = .error .typeError ∧
    Geometry.boundsGet destroyedFalseGeometry = .ok (destroyedFalseGeometry, none) := by
  have T := destroyed_operation_semantics destroyedTrueGeometry destroyedFalseGeometry
    "aUv" "aPosition" attrA bufB rfl rfl
  exact ⟨T.1, T.2.1, T.2.2.1, T.2.2.2.1, T.2.2.2.2.1 (by decide), T.2.2.2.2.2 (by decide)⟩

/-- Evaluation of `getSizeCore` when at least one attribute is present: the
division of the first attribute's buffer length by `(stride / 4) || size`. -/
theorem getSizeCore_cons (g : Geometry) (n : String) (a : Attribute)
    (rest : List (String × Attribute)) (h : g.attributes = (n, a) :: rest) :
    Geometry.getSizeCore g =
      JsNum.div (.num (a.buffer.dataLen : ℚ))
        (JsNum.jsOr
          (match a.stride with
           | none => JsNum.nan
           | some s => JsNum.num (s / 4))
          (match a.size with
           | none => JsNum.nan
           | some k => JsNum.num k)) := by
  unfold Geometry.getSizeCore
  rw [h]

/-- Counterexample to C4 as stated: with both `stride = 8` and `size = 3` on
a 13-element buffer, the code divides by `stride / 4 = 2` (stride takes
precedence over size, the reverse of the claim) and performs exact, unfloored
division, returning `6.5`; the claim's formula gives `floor(13 / 3) = 4`. -/
theorem getSize_stride_precedence_cex :
    strideSizeGeometry.attributes = [("aPosition", attrC)] ∧
    attrC.stride = some 8 ∧ attrC.size = some 3 ∧ attrC.buffer.dataLen = 13 ∧
    Geometry.getSize strideSizeGeometry = .ok (JsNum.num (13 / 2)) ∧
    getSizeSpec strideSizeGeometry = 4 ∧
    (13 / 2 : ℚ) ≠ 4 := by
  have hattr : strideSizeGeometry.attributes = [("aPosition", attrC)] := by decide
  have hlive : strideSizeGeometry.destroyed = false := by decide
  have h84 : (8 : ℚ) / 4 ≠ 0 := by norm_num
  refine ⟨hattr, rfl, rfl, rfl, ?_, ?_, by norm_num⟩
  · rw [show Geometry.getSize strideSizeGeometry
          = .ok (Geometry.getSizeCore strideSizeGeometry) by simp [Geometry.getSize, hlive],
      getSizeCore_cons strideSizeGeometry "aPosition" attrC [] hattr]
    simp [attrC, bufC, JsNum.jsOr, JsNum.truthy, JsNum.div_num_of_ne _ _ h84]
    norm_num
  · have hf : (⌊(13 : ℚ) / 3⌋ : ℤ) = 4 := by
      rw [Int.floor_eq_iff]
      norm_num
    simp only [getSizeSpec, hattr, attrC, bufC]
    norm_num [hf]

/-- C4 (amended): `getSize` returns `0` with no attributes; otherwise it
inspects only the first attribute in insertion order and returns the exact
(unfloored) quotient `bufferElementCount / perVertexElementCount`, where
`perVertexElementCount` is `strideBytes / 4` whenever `stride` is present and
nonzero, and the declared `size` only when `stride` is absent or zero; in
particular, for the 8-element position array with `size = 2` and no stride it
returns `4`. -/
theorem getSize_semantics (g : Geometry) (n : String) (a : Attribute)
    (rest : List (String × Attribute)) :
    (g.attributes = [] → Geometry.getSizeCore g = JsNum.num 0) ∧
    (g.attributes = (n, a) :: rest →
      (∀ s, a.stride = some s → s ≠ 0 →
        Geometry.getSizeCore g = JsNum.num ((a.buffer.dataLen : ℚ) / (s / 4))) ∧
      ((a.stride = none ∨ a.stride = some 0) → ∀ k, a.size = some k → k ≠ 0 →
        Geometry.getSizeCore g = JsNum.num ((a.buffer.dataLen : ℚ) / k))) ∧
    (g.destroyed = false → Geometry.getSize g = .ok (Geometry.getSizeCore g)) ∧
    Geometry.getSize sizeExampleGeometry = .ok (JsNum.num 4) := by
  refine ⟨fun he => ?_, fun hattrs => ⟨fun s hs hs0 => ?_, fun hst k hk hk0 => ?_⟩,
    fun hlive => ?_, ?_⟩
  · unfold Geometry.getSizeCore
    rw [he]
  · have hs4 : s / 4 ≠ 0 := div_ne_zero hs0 (by norm_num)
    rw [getSizeCore_cons g n a rest hattrs, hs]
    simp [JsNum.jsOr, JsNum.truthy, hs4, JsNum.div_num_of_ne _ _ hs4]
  · rw [getSizeCore_cons g n a rest hattrs, hk]
    rcases hst with hst | hst <;>
      rw [hst] <;>
      simp [JsNum.jsOr, JsNum.truthy, JsNum.div_num_of_ne _ _ hk0]
  · simp [Geometry.getSize, hlive]
  · have hattr : sizeExampleGeometry.attributes = [("aPosition", attrA)] := by decide
    have hlive : sizeExampleGeometry.destroyed = false := by decide
    have h2 : (2 : ℚ) ≠ 0 := by norm_num
    rw [show Geometry.getSize sizeExampleGeometry
          = .ok (Geometry.getSizeCore sizeExampleGeometry) by
        simp [Geometry.getSize, hlive],
      getSizeCore_cons sizeExampleGeometry "aPosition" attrA [] hattr]
    simp [attrA, bufA, JsNum.jsOr, JsNum.truthy, JsNum.div_num_of_ne _ _ h2]
    norm_num

/-- Witness for C4 (amended): the stride-precedence case on the
13-element buffer and the size-inference example. -/
theorem getSize_semantics_witness :
    Geometry.getSizeCore strideSizeGeometry =
      JsNum.num ((attrC.buffer.dataLen : ℚ) / (8 / 4)) ∧
    Geometry.getSize sizeExampleGeometry = .ok (JsNum.num 4) := by
  have T := getSize_semantics strideSizeGeometry "aPosition" attrC []
  exact ⟨(T.2.1 (by decide)).1 8 rfl (by norm_num), T.2.2.2⟩
